import Mathlib

/-!
Shallow embedding of the HweHweMe backend (FastAPI + SQLAlchemy) for the
access-control, sharing, grouping and alert logic exercised by the claims.

Tables are modelled as lists of rows inside a `DB` record; SQLAlchemy
queries become list operations (`find?`, `filter`, `insertionSort` for
`ORDER BY ... DESC`, `take` for `LIMIT`).  Timestamps are `Nat`;
latitude/longitude are opaque to every operation modelled here and are
carried as `Int` (the `device_locations` table declares `Float` columns)
or `String` (the `locations` table declares `String` columns), matching
`models.py`.

The source occasionally filters on a column spelled `.id` while the
mapped model declares the primary key as `device_id` / `group_id` /
`alert_id` / `share_id` (e.g. `crud.get_device` filters `Device.id`);
those filters are modelled against the declared primary-key column, as
noted at each definition.
-/

namespace HweHweMe

/-- Row of the `devices` table (`models.Device`).
Modelled from the spec: the field `is_shared_publicly` is the
device-level "publicly reportable" flag the spec attributes to the
device lookup; `main.create_location` consults it through
`crud.is_device_shared_publicly`, a function absent from `crud.py`, and
`models.Device` declares no such column. -/
structure Device where
  device_id : String
  user_id : Nat
  device_name : String
  device_type : String
  last_battery_level : Option Int
  is_shared_publicly : Bool
  deriving DecidableEq

/-- Row of the `shared_devices` table (`models.SharedDevice`); it carries
a `UniqueConstraint (device_id, shared_with_id)`. -/
structure SharedDevice where
  share_id : Nat
  device_id : String
  owner_id : Nat
  shared_with_id : Nat
  permission_level : String
  expires_at : Option Nat
  deriving DecidableEq

/-- Row of the `locations` table (the second schema variant in
`models.py`): `id`, integer-typed `device_id` foreign key to the string
key `devices.device_id` (modelled as `String`, the type it is compared
against in `crud.get_device_locations`), string latitude/longitude, and
a timestamp. -/
structure LocationRow where
  id : Nat
  device_id : String
  latitude : String
  longitude : String
  timestamp : Nat
  deriving DecidableEq

/-- Row of the `device_locations` table (`models.DeviceLocation`). -/
structure DeviceLocationRow where
  location_id : Nat
  device_id : String
  latitude : Int
  longitude : Int
  accuracy : Option Int
  altitude : Option Int
  recorded_by : Option String
  timestamp : Nat
  deriving DecidableEq

/-- Row of the `device_groups` table (`models.DeviceGroup`). -/
structure DeviceGroup where
  group_id : Nat
  user_id : Nat
  group_name : String
  proximity_threshold : Int
  deriving DecidableEq

/-- Row of the `group_memberships` table (`models.GroupMembership`). -/
structure GroupMembership where
  membership_id : Nat
  group_id : Nat
  device_id : String
  deriving DecidableEq

/-- Row of the `alerts` table (`models.Alert`). -/
structure Alert where
  alert_id : Nat
  device_id : String
  group_id : Option Nat
  alert_type : String
  latitude : Option Int
  longitude : Option Int
  is_resolved : Bool
  created_at : Nat
  resolved_at : Option Nat
  deriving DecidableEq

/-- The relational store: one list of rows per table used by the claims. -/
structure DB where
  devices : List Device
  shares : List SharedDevice
  locations : List LocationRow
  device_locations : List DeviceLocationRow
  groups : List DeviceGroup
  memberships : List GroupMembership
  alerts : List Alert
  deriving DecidableEq

/-- Body of `schemas.DeviceUpdate`: the only fields the update schema
exposes are `device_name` and `last_battery_level`, both optional
(`none` models a field left unset, excluded by
`dict(exclude_unset=True)`). -/
structure DeviceUpdate where
  device_name : Option String
  last_battery_level : Option Int
  deriving DecidableEq

/-- Body of `schemas.DeviceLocationCreate`. -/
structure DeviceLocationCreate where
  latitude : Int
  longitude : Int
  accuracy : Option Int
  altitude : Option Int
  device_id : String
  recorded_by : Option String
  deriving DecidableEq

/-- Error raised by the storage layer when a declared unique constraint
is violated (SQLAlchemy `IntegrityError` at `commit`). -/
inductive DbError
  | uniqueViolation
  deriving DecidableEq

/-- HTTP-level failure (`fastapi.HTTPException`): status code and detail. -/
structure HTTPError where
  status_code : Nat
  detail : String
  deriving DecidableEq

/-- Outcome of a request handler: either an `HTTPException` or a value. -/
abbrev EndpointResult (α : Type) := Except HTTPError α

/-! ## crud.py -/

/-- `crud.get_device`: first `devices` row whose primary key matches (the
source filters `Device.id`; the mapped primary key column is
`device_id`). -/
def get_device (db : DB) (device_id : String) : Option Device :=
  db.devices.find? (fun d => d.device_id == device_id)

/-- `crud.get_device_group`: first `device_groups` row by primary key
(source filter `DeviceGroup.id`; declared key `group_id`). -/
def get_device_group (db : DB) (group_id : Nat) : Option DeviceGroup :=
  db.groups.find? (fun g => g.group_id == group_id)

/-- `crud.get_alert`: first `alerts` row by primary key (source filter
`Alert.id`; declared key `alert_id`). -/
def get_alert (db : DB) (alert_id : Nat) : Option Alert :=
  db.alerts.find? (fun a => a.alert_id == alert_id)

/-- `crud.check_device_shared_with_user`: first `shared_devices` row with
the given `device_id` and `shared_with_id`.  The source filters on
nothing else: neither `expires_at` nor `permission_level` is consulted. -/
def check_device_shared_with_user (db : DB) (device_id : String) (user_id : Nat) :
    Option SharedDevice :=
  db.shares.find? (fun s => s.device_id == device_id && s.shared_with_id == user_id)

/-- Ordering used by `ORDER BY Location.timestamp DESC`: `tsDesc a b`
holds when `a`'s timestamp is at least `b`'s. -/
def tsDesc (a b : LocationRow) : Prop := b.timestamp ≤ a.timestamp

instance : DecidableRel tsDesc :=
  fun a b => inferInstanceAs (Decidable (b.timestamp ≤ a.timestamp))

instance : IsTotal LocationRow tsDesc :=
  ⟨fun a b => Nat.le_total b.timestamp a.timestamp⟩

instance : IsTrans LocationRow tsDesc :=
  ⟨fun _ _ _ h1 h2 => Nat.le_trans h2 h1⟩

/-- Rows of `locations` for one device, most recent first (the sort
models `ORDER BY timestamp DESC`; ties are broken arbitrarily, as in
SQL). -/
def locationsByTimestampDesc (db : DB) (device_id : String) : List LocationRow :=
  (db.locations.filter (fun l => l.device_id == device_id)).insertionSort tsDesc

/-- `crud.get_device_locations`: filter `locations` by device, order by
timestamp descending, `LIMIT limit` (`limit` defaults to 10). -/
def get_device_locations (db : DB) (device_id : String) (limit : Nat := 10) :
    List LocationRow :=
  (locationsByTimestampDesc db device_id).take limit

/-- `crud.get_device_latest_location`: same query with `.first()`. -/
def get_device_latest_location (db : DB) (device_id : String) : Option LocationRow :=
  (locationsByTimestampDesc db device_id).head?

/-- `crud.is_device_shared_publicly`.  Modelled from the spec: this
function is called by `main.create_location` but is not defined in
`crud.py`; the spec describes it as reading the device-level "publicly
reportable" flag exposed by the device lookup. -/
def is_device_shared_publicly (db : DB) (device_id : String) : Bool :=
  match get_device db device_id with
  | some d => d.is_shared_publicly
  | none => false

/-- Update of one device under `crud.update_device`: `setattr` for each
field present in `device_update.dict(exclude_unset=True)` — only
`device_name` and `last_battery_level` exist on the schema. -/
def applyDeviceUpdate (upd : DeviceUpdate) (d : Device) : Device :=
  let d1 := match upd.device_name with
    | some v => { d with device_name := v }
    | none => d
  match upd.last_battery_level with
  | some v => { d1 with last_battery_level := some v }
  | none => d1

/-- `crud.update_device`: the first `devices` row matching `device_id`
receives the `setattr` updates; the source updates `.first()` only, and
primary keys are unique, so mapping every matching row is the same
update. -/
def update_device (db : DB) (device_id : String) (upd : DeviceUpdate) : DB :=
  { db with
    devices := db.devices.map
      (fun d => if d.device_id == device_id then applyDeviceUpdate upd d else d) }

/-- `crud.resolve_alert`: `UPDATE alerts SET resolved = TRUE WHERE id =
alert_id` (source dict key `resolved`, declared column `is_resolved`;
source filter `Alert.id`, declared key `alert_id`).  `resolved_at` is
not among the updated keys. -/
def resolve_alert (db : DB) (alert_id : Nat) : DB :=
  { db with
    alerts := db.alerts.map
      (fun a => if a.alert_id == alert_id then { a with is_resolved := true } else a) }

/-- Storage-layer insert into `shared_devices`: `db.add` + `commit`
raises `IntegrityError` when the declared
`UniqueConstraint (device_id, shared_with_id)` is violated, leaving the
table unchanged; otherwise the row is appended. -/
def insert_shared_device (db : DB) (s : SharedDevice) : Except DbError DB :=
  if db.shares.any (fun t => t.device_id == s.device_id && t.shared_with_id == s.shared_with_id)
  then Except.error DbError.uniqueViolation
  else Except.ok { db with shares := db.shares ++ [s] }

/-- The `SharedDevice` row `crud.share_device` builds from its arguments
(the autoincremented `share_id` is modelled as the current row count). -/
def mkShare (db : DB) (device_id : String) (owner_id shared_with_id : Nat)
    (permission_level : String) (expires_at : Option Nat) : SharedDevice :=
  { share_id := db.shares.length
    device_id := device_id
    owner_id := owner_id
    shared_with_id := shared_with_id
    permission_level := permission_level
    expires_at := expires_at }

/-- `crud.share_device`: build a `SharedDevice` row from the arguments
and insert it. -/
def share_device (db : DB) (device_id : String) (owner_id shared_with_id : Nat)
    (permission_level : String) (expires_at : Option Nat) :
    Except DbError (DB × SharedDevice) :=
  match insert_shared_device db
      (mkShare db device_id owner_id shared_with_id permission_level expires_at) with
  | Except.error e => Except.error e
  | Except.ok db2 =>
    Except.ok (db2, mkShare db device_id owner_id shared_with_id permission_level expires_at)

/-- Number of `shared_devices` rows for one (device, recipient) pair. -/
def sharePairCount (db : DB) (device_id : String) (shared_with_id : Nat) : Nat :=
  (db.shares.filter
    (fun t => t.device_id == device_id && t.shared_with_id == shared_with_id)).length

/-- `crud.remove_device_from_group`: the source issues a bulk `delete()`
filtered on `group_id` and `device_id` and has no `return` statement, so
its Python value is `None` (modelled as the `none` in the result pair);
the row count of the delete is discarded.  (The source's query names the
`DeviceGroup` model, whose mapped table has no `device_id` column; the
deletion is modelled against the membership table the filter's columns
belong to.) -/
def crud_remove_device_from_group (db : DB) (group_id : Nat) (device_id : String) :
    DB × Option Unit :=
  ({ db with
     memberships := db.memberships.filter
       (fun m => !(m.group_id == group_id && m.device_id == device_id)) },
   none)

/-! ## main.py request handlers -/

/-- `GET /devices/device_id` (`main.read_device`): 404 "Device not
found" both when no such device exists and when it exists but is owned
by another user; the shares table is never consulted. -/
def read_device (db : DB) (current_user : Nat) (device_id : String) :
    EndpointResult Device :=
  match get_device db device_id with
  | none => Except.error ⟨404, "Device not found"⟩
  | some device =>
    if device.user_id ≠ current_user then Except.error ⟨404, "Device not found"⟩
    else Except.ok device

/-- `GET /locations/device_id` (`main.read_device_locations`): 404 when
the device is absent; for a non-owner, 403 unless
`check_device_shared_with_user` returns a row; otherwise the limited
descending history.  `limit` is a query parameter defaulting to 10
(`none` models an absent parameter). -/
def read_device_locations (db : DB) (current_user : Nat) (device_id : String)
    (limit : Option Nat) : EndpointResult (List LocationRow) :=
  match get_device db device_id with
  | none => Except.error ⟨404, "Device not found"⟩
  | some device =>
    if device.user_id ≠ current_user then
      match check_device_shared_with_user db device_id current_user with
      | none => Except.error ⟨403, "Not authorized to view this device\x27s location"⟩
      | some _ => Except.ok (get_device_locations db device_id (limit.getD 10))
    else Except.ok (get_device_locations db device_id (limit.getD 10))

/-- `GET /locations/device_id/latest` (`main.read_device_latest_location`):
same ownership-or-share guard, then the newest fix or 404. -/
def read_device_latest_location (db : DB) (current_user : Nat) (device_id : String) :
    EndpointResult LocationRow :=
  match get_device db device_id with
  | none => Except.error ⟨404, "Device not found"⟩
  | some device =>
    if device.user_id ≠ current_user ∧
        (check_device_shared_with_user db device_id current_user).isNone then
      Except.error ⟨403, "Not authorized to view this device\x27s location"⟩
    else
      match get_device_latest_location db device_id with
      | none => Except.error ⟨404, "No location data available for this device"⟩
      | some location => Except.ok location

/-- `POST /locations/` (`main.create_location`): 404 when the device is
absent; for a non-owner, 403 unless the device is publicly reportable.
On the remaining paths the source calls
`crud.create_device_location(db=db, location=location, reported_by=...)`
while `crud.create_device_location` is declared `(db, location)`; the
call therefore raises `TypeError` (an unhandled 500) and no row is ever
written, so the handler returns the store unchanged. -/
def create_location_endpoint (db : DB) (current_user : Nat)
    (location : DeviceLocationCreate) : DB × EndpointResult DeviceLocationRow :=
  match get_device db location.device_id with
  | none => (db, Except.error ⟨404, "Device not found"⟩)
  | some device =>
    if device.user_id ≠ current_user then
      if !is_device_shared_publicly db location.device_id then
        (db, Except.error ⟨403, "Not authorized to update this device\x27s location"⟩)
      else
        (db, Except.error ⟨500,
          "TypeError: create_device_location() got an unexpected keyword argument \x27reported_by\x27"⟩)
    else
      (db, Except.error ⟨500,
        "TypeError: create_device_location() got an unexpected keyword argument \x27reported_by\x27"⟩)

/-- `POST /groups/group_id/devices` (`main.add_device_to_group`): 404
"Group not found" when the group is absent or owned by someone else; 404
"Device not found or not owned by you" when the device is absent or
owned by someone else.  Past both checks the source calls
`crud.add_device_to_group(db, group_id=..., device_id=...)` while the
crud function is declared `(db, membership)`; the `TypeError` is caught
by the surrounding `except Exception` and surfaced as a 400, so no
membership is ever returned. -/
def add_device_to_group_endpoint (db : DB) (current_user : Nat) (group_id : Nat)
    (device_id : String) : EndpointResult GroupMembership :=
  match get_device_group db group_id with
  | none => Except.error ⟨404, "Group not found"⟩
  | some group =>
    if group.user_id ≠ current_user then Except.error ⟨404, "Group not found"⟩
    else
      match get_device db device_id with
      | none => Except.error ⟨404, "Device not found or not owned by you"⟩
      | some device =>
        if device.user_id ≠ current_user then
          Except.error ⟨404, "Device not found or not owned by you"⟩
        else
          Except.error ⟨400,
            "add_device_to_group() got an unexpected keyword argument \x27group_id\x27"⟩

/-- `DELETE /groups/group_id/devices/device_id`
(`main.remove_device_from_group`): 404 "Group not found" unless the
requester owns the group; then the crud delete runs and its Python
result (`None`) is tested with `if not result`, raising 404 "Device not
found in group". -/
def remove_device_from_group_endpoint (db : DB) (current_user : Nat) (group_id : Nat)
    (device_id : String) : DB × EndpointResult String :=
  match get_device_group db group_id with
  | none => (db, Except.error ⟨404, "Group not found"⟩)
  | some group =>
    if group.user_id ≠ current_user then (db, Except.error ⟨404, "Group not found"⟩)
    else
      let r := crud_remove_device_from_group db group_id device_id
      match r.2 with
      | none => (r.1, Except.error ⟨404, "Device not found in group"⟩)
      | some _ => (r.1, Except.ok "Device removed from group")

/-! ## Definitions taken from the specification, for comparison

These two definitions follow the words of the specification, not the
source; they exist only so claims about the spec's intended semantics
can be stated and compared against the behaviour of the source. -/

/-- Modelled from the spec: rank of a permission level under the total
order view < locate < full; strings outside the enumeration have no
rank ("unknown values are rejected"). -/
def specLevelRank : String → Option Nat
  | "view" => some 0
  | "locate" => some 1
  | "full" => some 2
  | _ => none

/-- Modelled from the spec: a share's level satisfies a required level
exactly when both are enumerated levels and the share's rank is at least
the required rank. -/
def specLevelGE (lvl required : String) : Bool :=
  match specLevelRank lvl, specLevelRank required with
  | some a, some b => decide (b ≤ a)
  | _, _ => false

/-- Modelled from the spec: a share is active at time `now` when it has
no expiry or its expiry is not in the past. -/
def specShareActive (s : SharedDevice) (now : Nat) : Bool :=
  match s.expires_at with
  | none => true
  | some e => decide (now ≤ e)

/-! ## Helpers for stating share-field independence -/

/-- Rewrite every row of `shared_devices` through `h`, leaving every
other table untouched. -/
def mapShares (h : SharedDevice → SharedDevice) (db : DB) : DB :=
  { db with shares := db.shares.map h }

/-- Rewrite every share's `expires_at` through `f`, leaving every other
column and every other table untouched. -/
def setShareExpiry (f : Option Nat → Option Nat) : DB → DB :=
  mapShares (fun s => { s with expires_at := f s.expires_at })

/-- Rewrite every share's `permission_level` through `g`, leaving every
other column and every other table untouched. -/
def setShareLevel (g : String → String) : DB → DB :=
  mapShares (fun s => { s with permission_level := g s.permission_level })

/-! ## Concrete stores used as test fixtures -/

/-- Store with every table empty. -/
def DB.empty : DB :=
  { devices := [], shares := [], locations := [], device_locations := []
    groups := [], memberships := [], alerts := [] }

/-- Device d1, owned by user 1, not publicly reportable. -/
def dev1 : Device :=
  { device_id := "d1", user_id := 1, device_name := "keys", device_type := "tag"
    last_battery_level := some 80, is_shared_publicly := false }

/-- Share on d1 from user 1 to user 2 at level view, expiring at time 5. -/
def c1share : SharedDevice :=
  { share_id := 1, device_id := "d1", owner_id := 1, shared_with_id := 2
    permission_level := "view", expires_at := some 5 }

/-- A single location fix for d1 at time 3. -/
def c1loc : LocationRow :=
  { id := 1, device_id := "d1", latitude := "4", longitude := "5", timestamp := 3 }

/-- Fixture for the expiry claim: user 1 owns d1 and holds one location
fix; user 2 holds a share on d1 whose `expires_at` is 5. -/
def c1db : DB :=
  { DB.empty with devices := [dev1], shares := [c1share], locations := [c1loc] }

/-- The same store with the share row removed. -/
def c1dbNoShare : DB := { c1db with shares := [] }

/-- A single location fix for d2 at time 7. -/
def c2loc : LocationRow :=
  { id := 1, device_id := "d2", latitude := "0", longitude := "1", timestamp := 7 }

/-- Fixture for the permission-level claim: the share's level is the
string "none", which is not one of view/locate/full. -/
def c2db : DB :=
  { DB.empty with
    devices := [{ dev1 with device_id := "d2" }]
    shares := [{ share_id := 1, device_id := "d2", owner_id := 1, shared_with_id := 2
                 permission_level := "none", expires_at := none }]
    locations := [c2loc] }

/-- Fixture for the location-write claim: d1 owned by user 1, nothing
shared, not publicly reportable. -/
def c3db : DB := { DB.empty with devices := [dev1] }

/-- Location payload for d1. -/
def c3loc : DeviceLocationCreate :=
  { latitude := 4, longitude := 5, accuracy := none, altitude := none
    device_id := "d1", recorded_by := some "d9" }

/-- Share row produced by the first insert of the duplicate-share claim. -/
def c4share : SharedDevice :=
  { share_id := 0, device_id := "d1", owner_id := 1, shared_with_id := 2
    permission_level := "view", expires_at := none }

/-- Store holding exactly that one share row. -/
def c4db1 : DB := { DB.empty with shares := [c4share] }

/-- Fixture for the resolve-alert claim: one unresolved alert. -/
def c5db : DB :=
  { DB.empty with
    alerts := [{ alert_id := 1, device_id := "d1", group_id := none
                 alert_type := "left_behind", latitude := none, longitude := none
                 is_resolved := false, created_at := 2, resolved_at := none }] }

/-- Fixture for the group-add claim: group 1 and device d1 both owned by
user 1, and user 2 holding a full-level share on d1. -/
def c6db : DB :=
  { DB.empty with
    devices := [dev1]
    groups := [{ group_id := 1, user_id := 1, group_name := "family"
                 proximity_threshold := 20 }]
    shares := [{ share_id := 1, device_id := "d1", owner_id := 1, shared_with_id := 2
                 permission_level := "full", expires_at := none }] }

/-- Fixture for the remove-from-group claim: group 1 owned by user 1,
with d1 a member. -/
def c7db : DB :=
  { DB.empty with
    devices := [dev1]
    groups := [{ group_id := 1, user_id := 1, group_name := "family"
                 proximity_threshold := 20 }]
    memberships := [{ membership_id := 1, group_id := 1, device_id := "d1" }] }

/-- Fixture for the metadata-read claim: d1 owned by user 1, with an
unexpired full-level share to user 2. -/
def c9db : DB :=
  { DB.empty with
    devices := [dev1]
    shares := [{ share_id := 1, device_id := "d1", owner_id := 1, shared_with_id := 2
                 permission_level := "full", expires_at := some 1000 }] }

/-- Location fixes for the history claim, timestamps 3, 9 and 6. -/
def c10r1 : LocationRow := { id := 1, device_id := "d1", latitude := "1", longitude := "1", timestamp := 3 }

/-- Second fix, the most recent one. -/
def c10r2 : LocationRow := { id := 2, device_id := "d1", latitude := "2", longitude := "2", timestamp := 9 }

/-- Third fix, in the middle. -/
def c10r3 : LocationRow := { id := 3, device_id := "d1", latitude := "3", longitude := "3", timestamp := 6 }

/-- Fixture for the history claim: three fixes for d1 plus one for
another device. -/
def c10db : DB :=
  { DB.empty with
    devices := [dev1]
    locations := [c10r1, c10r2,
                  { id := 4, device_id := "dz", latitude := "9", longitude := "9", timestamp := 50 },
                  c10r3] }

/-! ## Helper lemmas -/

/-- A share-row rewrite that keeps `device_id` and `shared_with_id`
commutes with `check_device_shared_with_user` up to `Option.map`: the
lookup's filter reads only those two columns. -/
theorem check_shared_mapShares (h : SharedDevice → SharedDevice)
    (hdev : ∀ s, (h s).device_id = s.device_id)
    (hwith : ∀ s, (h s).shared_with_id = s.shared_with_id)
    (db : DB) (did : String) (u : Nat) :
    check_device_shared_with_user (mapShares h db) did u =
      Option.map h (check_device_shared_with_user db did u) := by
  unfold check_device_shared_with_user mapShares
  rw [List.find?_map]
  have hpred : ((fun s => s.device_id == did && s.shared_with_id == u) ∘ h) =
      (fun s : SharedDevice => s.device_id == did && s.shared_with_id == u) := by
    funext s
    simp [Function.comp, hdev, hwith]
  rw [hpred]

/-- The location-history endpoint never reads any share column other
than `device_id` and `shared_with_id`. -/
theorem read_device_locations_mapShares (h : SharedDevice → SharedDevice)
    (hdev : ∀ s, (h s).device_id = s.device_id)
    (hwith : ∀ s, (h s).shared_with_id = s.shared_with_id)
    (db : DB) (u : Nat) (did : String) (lim : Option Nat) :
    read_device_locations (mapShares h db) u did lim =
      read_device_locations db u did lim := by
  unfold read_device_locations
  have h1 : get_device (mapShares h db) did = get_device db did := rfl
  have h2 : ∀ k, get_device_locations (mapShares h db) did k =
      get_device_locations db did k := fun _ => rfl
  simp only [h1, h2, check_shared_mapShares h hdev hwith]
  cases hd : get_device db did with
  | none => rfl
  | some d =>
    by_cases hu : d.user_id ≠ u
    · simp only [if_pos hu]
      cases hc : check_device_shared_with_user db did u <;> rfl
    · simp only [if_neg hu]

/-- The latest-location endpoint never reads any share column other
than `device_id` and `shared_with_id`. -/
theorem read_device_latest_location_mapShares (h : SharedDevice → SharedDevice)
    (hdev : ∀ s, (h s).device_id = s.device_id)
    (hwith : ∀ s, (h s).shared_with_id = s.shared_with_id)
    (db : DB) (u : Nat) (did : String) :
    read_device_latest_location (mapShares h db) u did =
      read_device_latest_location db u did := by
  unfold read_device_latest_location
  have h1 : get_device (mapShares h db) did = get_device db did := rfl
  have h2 : get_device_latest_location (mapShares h db) did =
      get_device_latest_location db did := rfl
  simp only [h1, h2, check_shared_mapShares h hdev hwith]
  cases hd : get_device db did with
  | none => rfl
  | some d =>
    cases hc : check_device_shared_with_user db did u <;> rfl

/-- What `crud.get_device_locations` returns: at most `lim` rows, sorted
by descending timestamp, and — together with the dropped remainder — a
permutation of the device's full history in which every returned row is
at least as recent as every omitted one. -/
theorem get_device_locations_spec (db : DB) (did : String) (lim : Nat) :
    (get_device_locations db did lim).length ≤ lim ∧
    List.Sorted tsDesc (get_device_locations db did lim) ∧
    (get_device_locations db did lim ++ (locationsByTimestampDesc db did).drop lim).Perm
      (db.locations.filter (fun l => l.device_id == did)) ∧
    (∀ x ∈ get_device_locations db did lim,
      ∀ y ∈ (locationsByTimestampDesc db did).drop lim, y.timestamp ≤ x.timestamp) := by
  have hsorted : List.Sorted tsDesc (locationsByTimestampDesc db did) :=
    List.sorted_insertionSort tsDesc _
  refine ⟨?_, ?_, ?_, ?_⟩
  · rw [get_device_locations, List.length_take]
    exact min_le_left _ _
  · exact List.Pairwise.sublist (List.take_sublist _ _) hsorted
  · rw [get_device_locations, List.take_append_drop]
    exact List.perm_insertionSort tsDesc _
  · intro x hx y hy
    exact hsorted.rel_of_mem_take_of_mem_drop hx hy

/-! ## Claim C1 — expiry of shares -/

/-- C1 is false on the code: in `c1db` user 2's share on d1 carries
`expires_at = 5`, which is in the past at any access time from 6 on
(`specShareActive c1share 6 = false`), yet both location-read endpoints
grant user 2 access; with no share at all they deny with 403.  So an
expired share is not treated as if no share existed:
`check_device_shared_with_user` never reads `expires_at`. -/
theorem c1_expired_share_counterexample :
    c1db.shares = [c1share] ∧
    c1share.expires_at = some 5 ∧
    specShareActive c1share 6 = false ∧
    read_device_locations c1db 2 "d1" (some 10) = Except.ok [c1loc] ∧
    read_device_latest_location c1db 2 "d1" = Except.ok c1loc ∧
    read_device_locations c1dbNoShare 2 "d1" (some 10) =
      Except.error ⟨403, "Not authorized to view this device\x27s location"⟩ ∧
    read_device_latest_location c1dbNoShare 2 "d1" =
      Except.error ⟨403, "Not authorized to view this device\x27s location"⟩ :=
  ⟨rfl, rfl, rfl, rfl, rfl, rfl, rfl⟩

/-- C1 amended: the location-read endpoints never evaluate `expires_at`
— rewriting every share's expiry arbitrarily changes neither endpoint's
result — and any share row for (device, requester) grants access, so a
share with a past expiry behaves identically to an unexpired share, not
to an absent one. -/
theorem c1_share_grants_regardless_of_expiry :
    (∀ (f : Option Nat → Option Nat) (db : DB) (u : Nat) (did : String) (lim : Option Nat),
        read_device_locations (setShareExpiry f db) u did lim =
          read_device_locations db u did lim) ∧
    (∀ (f : Option Nat → Option Nat) (db : DB) (u : Nat) (did : String),
        read_device_latest_location (setShareExpiry f db) u did =
          read_device_latest_location db u did) ∧
    (∀ (db : DB) (u : Nat) (did : String) (lim : Option Nat) (d : Device) (s : SharedDevice),
        get_device db did = some d → d.user_id ≠ u →
        check_device_shared_with_user db did u = some s →
        read_device_locations db u did lim =
          Except.ok (get_device_locations db did (lim.getD 10)) ∧
        read_device_latest_location db u did ≠
          Except.error ⟨403, "Not authorized to view this device\x27s location"⟩) := by
  refine ⟨?_, ?_, ?_⟩
  · intro f db u did lim
    exact read_device_locations_mapShares (fun s => { s with expires_at := f s.expires_at })
      (fun _ => rfl) (fun _ => rfl) db u did lim
  · intro f db u did
    exact read_device_latest_location_mapShares (fun s => { s with expires_at := f s.expires_at })
      (fun _ => rfl) (fun _ => rfl) db u did
  · intro db u did lim d s hd hu hs
    constructor
    · unfold read_device_locations
      simp only [hd, hs, if_pos hu]
    · unfold read_device_latest_location
      simp only [hd, hs, Option.isNone_some]
      rw [if_neg (by simp)]
      cases hl : get_device_latest_location db did <;> simp

/-- C1 witness: at the concrete store `c1db` the hypotheses of the
granting part hold, and user 2's expired share yields the history. -/
theorem c1_witness :
    read_device_locations c1db 2 "d1" (some 10) =
      Except.ok (get_device_locations c1db "d1" 10) ∧
    read_device_latest_location c1db 2 "d1" ≠
      Except.error ⟨403, "Not authorized to view this device\x27s location"⟩ :=
  c1_share_grants_regardless_of_expiry.2.2 c1db 2 "d1" (some 10) dev1 c1share rfl
    (by decide) rfl

/-! ## Claim C2 — permission-level comparison -/

/-- C2 is false on the code: in `c2db` user 2's share on d2 carries the
permission level "none", which is not an enumerated level and so
satisfies no required level under the spec's total order
view < locate < full (all three `specLevelGE` comparisons are false),
yet both location-read endpoints grant access.  The share's
`permission_level` is never compared against anything. -/
theorem c2_level_ignored_counterexample :
    c2db.shares.map SharedDevice.permission_level = ["none"] ∧
    specLevelGE "none" "view" = false ∧
    specLevelGE "none" "locate" = false ∧
    specLevelGE "none" "full" = false ∧
    specLevelGE "full" "view" = true ∧
    read_device_locations c2db 2 "d2" (some 10) = Except.ok [c2loc] ∧
    read_device_latest_location c2db 2 "d2" = Except.ok c2loc :=
  ⟨rfl, rfl, rfl, rfl, rfl, rfl, rfl⟩

/-- C2 amended: the location-read endpoints never compare the share's
permission level to any required level — rewriting every share's
`permission_level` arbitrarily (for example collapsing full to view, or
to any string at all) changes neither endpoint's result; any share row
grants access whatever its level. -/
theorem c2_access_independent_of_permission_level :
    (∀ (g : String → String) (db : DB) (u : Nat) (did : String) (lim : Option Nat),
        read_device_locations (setShareLevel g db) u did lim =
          read_device_locations db u did lim) ∧
    (∀ (g : String → String) (db : DB) (u : Nat) (did : String),
        read_device_latest_location (setShareLevel g db) u did =
          read_device_latest_location db u did) :=
  ⟨fun g db u did lim =>
      read_device_locations_mapShares (fun s => { s with permission_level := g s.permission_level })
        (fun _ => rfl) (fun _ => rfl) db u did lim,
   fun g db u did =>
      read_device_latest_location_mapShares (fun s => { s with permission_level := g s.permission_level })
        (fun _ => rfl) (fun _ => rfl) db u did⟩

/-! ## Claim C3 — location writes -/

/-- C3 describes the intended behaviour; the code diverges on the accept
paths.  In `c3db` user 1 owns d1: the claim says user 1's location write
succeeds, but the handler's call to `crud.create_device_location` passes
the keyword `reported_by`, which that function does not accept, so every
accept path (owner or publicly-reportable device) raises `TypeError`
(500) and writes nothing.  The denial path behaves as claimed: user 2,
with d1 not publicly reportable, is rejected with 403. -/
theorem c3_location_write_crashes :
    (get_device c3db "d1").map Device.user_id = some 1 ∧
    create_location_endpoint c3db 1 c3loc =
      (c3db, Except.error ⟨500,
        "TypeError: create_device_location() got an unexpected keyword argument \x27reported_by\x27"⟩) ∧
    create_location_endpoint c3db 2 c3loc =
      (c3db, Except.error ⟨403, "Not authorized to update this device\x27s location"⟩) :=
  ⟨rfl, rfl, rfl⟩

/-! ## Claim C4 — duplicate shares -/

/-- C4: starting from a store with no share row for the (device,
recipient) pair, the first `share_device` succeeds; re-running it with
the same inputs hits the `UniqueConstraint (device_id, shared_with_id)`
and is rejected with a uniqueness conflict, and the pair still has
exactly one share row. -/
theorem c4_share_twice_single_row :
    ∀ (db : DB) (did : String) (owner rcp : Nat) (lvl : String) (e : Option Nat),
      sharePairCount db did rcp = 0 →
      (∃ res, share_device db did owner rcp lvl e = Except.ok res) ∧
      (∀ (db1 : DB) (s : SharedDevice),
        share_device db did owner rcp lvl e = Except.ok (db1, s) →
        share_device db1 did owner rcp lvl e = Except.error DbError.uniqueViolation ∧
        sharePairCount db1 did rcp = 1) := by
  intro db did owner rcp lvl e h
  have hfil : db.shares.filter (fun t => t.device_id == did && t.shared_with_id == rcp) = [] :=
    List.length_eq_zero.mp h
  have hany : db.shares.any (fun t => t.device_id == did && t.shared_with_id == rcp) = false := by
    rw [List.any_eq_false]
    exact List.filter_eq_nil_iff.mp hfil
  have hmk1 : ∀ dbx : DB, (mkShare dbx did owner rcp lvl e).device_id = did := fun _ => rfl
  have hmk2 : ∀ dbx : DB, (mkShare dbx did owner rcp lvl e).shared_with_id = rcp := fun _ => rfl
  have hins : insert_shared_device db (mkShare db did owner rcp lvl e) =
      Except.ok { db with shares := db.shares ++ [mkShare db did owner rcp lvl e] } := by
    unfold insert_shared_device
    simp only [hmk1, hmk2, hany]
    rfl
  constructor
  · exact ⟨({ db with shares := db.shares ++ [mkShare db did owner rcp lvl e] },
      mkShare db did owner rcp lvl e), by unfold share_device; rw [hins]⟩
  · intro db1 s hok
    have hok2 : share_device db did owner rcp lvl e =
        Except.ok ({ db with shares := db.shares ++ [mkShare db did owner rcp lvl e] },
          mkShare db did owner rcp lvl e) := by
      unfold share_device
      rw [hins]
    rw [hok2] at hok
    have hdb1 : db1 = { db with shares := db.shares ++ [mkShare db did owner rcp lvl e] } :=
      (congrArg Prod.fst (Except.ok.inj hok)).symm
    subst hdb1
    have hany2 : (db.shares ++ [mkShare db did owner rcp lvl e]).any
        (fun t => t.device_id == did && t.shared_with_id == rcp) = true := by
      rw [List.any_append, hany]
      simp [mkShare]
    constructor
    · unfold share_device insert_shared_device
      simp only [hmk1, hmk2]
      simp only [show ({ db with shares := db.shares ++ [mkShare db did owner rcp lvl e] } : DB).shares
          = db.shares ++ [mkShare db did owner rcp lvl e] from rfl, hany2]
      rfl
    · unfold sharePairCount
      simp only [show ({ db with shares := db.shares ++ [mkShare db did owner rcp lvl e] } : DB).shares
          = db.shares ++ [mkShare db did owner rcp lvl e] from rfl]
      rw [List.filter_append, hfil]
      simp [mkShare]

/-- C4 witness: on the empty store, sharing d1 with user 2 twice leaves
exactly the single row `c4share`, the second run erroring with the
uniqueness conflict. -/
theorem c4_share_twice_witness :
    sharePairCount DB.empty "d1" 2 = 0 ∧
    share_device DB.empty "d1" 1 2 "view" none = Except.ok (c4db1, c4share) ∧
    share_device c4db1 "d1" 1 2 "view" none = Except.error DbError.uniqueViolation ∧
    sharePairCount c4db1 "d1" 2 = 1 :=
  ⟨rfl, rfl,
   (c4_share_twice_single_row DB.empty "d1" 1 2 "view" none rfl).2 c4db1 c4share rfl |>.1,
   (c4_share_twice_single_row DB.empty "d1" 1 2 "view" none rfl).2 c4db1 c4share rfl |>.2⟩

/-! ## Claim C5 — resolving an alert -/

/-- C5 is false in one respect: resolving the alert in `c5db` flips
`is_resolved` to true but leaves `resolved_at` at `none` — the source's
bulk update writes only the resolved flag, so no resolution timestamp is
ever set, contrary to the claim. -/
theorem c5_resolved_at_not_set_counterexample :
    c5db.alerts.map Alert.is_resolved = [false] ∧
    c5db.alerts.map Alert.resolved_at = [none] ∧
    (resolve_alert c5db 1).alerts.map Alert.is_resolved = [true] ∧
    (resolve_alert c5db 1).alerts.map Alert.resolved_at = [none] :=
  ⟨rfl, rfl, rfl, rfl⟩

/-- Any alert projection unaffected by setting the resolved flag is
preserved row-by-row under `resolve_alert`. -/
theorem resolve_alert_map_proj {β : Type} (proj : Alert → β)
    (hproj : ∀ a : Alert, proj { a with is_resolved := true } = proj a)
    (db : DB) (aid : Nat) :
    (resolve_alert db aid).alerts.map proj = db.alerts.map proj := by
  show (db.alerts.map fun a =>
      if a.alert_id == aid then { a with is_resolved := true } else a).map proj
    = db.alerts.map proj
  rw [List.map_map]
  refine List.map_congr_left ?_
  intro a _
  show proj (if a.alert_id == aid then { a with is_resolved := true } else a) = proj a
  cases hx : a.alert_id == aid
  · simp
  · simp [hproj]

/-- C5 amended: `resolve_alert` deletes nothing (every table, and the
number of alerts, is unchanged) and touches no alert column except
`is_resolved`, which becomes true exactly for the matched alert id;
in particular `resolved_at` is left unchanged — it is never set. -/
theorem c5_resolve_alert_frame :
    ∀ (db : DB) (aid : Nat),
      (resolve_alert db aid).devices = db.devices ∧
      (resolve_alert db aid).shares = db.shares ∧
      (resolve_alert db aid).locations = db.locations ∧
      (resolve_alert db aid).device_locations = db.device_locations ∧
      (resolve_alert db aid).groups = db.groups ∧
      (resolve_alert db aid).memberships = db.memberships ∧
      (resolve_alert db aid).alerts.length = db.alerts.length ∧
      (resolve_alert db aid).alerts.map Alert.alert_id = db.alerts.map Alert.alert_id ∧
      (resolve_alert db aid).alerts.map Alert.device_id = db.alerts.map Alert.device_id ∧
      (resolve_alert db aid).alerts.map Alert.group_id = db.alerts.map Alert.group_id ∧
      (resolve_alert db aid).alerts.map Alert.alert_type = db.alerts.map Alert.alert_type ∧
      (resolve_alert db aid).alerts.map Alert.latitude = db.alerts.map Alert.latitude ∧
      (resolve_alert db aid).alerts.map Alert.longitude = db.alerts.map Alert.longitude ∧
      (resolve_alert db aid).alerts.map Alert.created_at = db.alerts.map Alert.created_at ∧
      (resolve_alert db aid).alerts.map Alert.resolved_at = db.alerts.map Alert.resolved_at ∧
      (resolve_alert db aid).alerts.map Alert.is_resolved =
        db.alerts.map (fun a => a.is_resolved || (a.alert_id == aid)) := by
  intro db aid
  refine ⟨rfl, rfl, rfl, rfl, rfl, rfl, ?_, ?_, ?_, ?_, ?_, ?_, ?_, ?_, ?_, ?_⟩
  · show (db.alerts.map fun a =>
        if a.alert_id == aid then { a with is_resolved := true } else a).length
      = db.alerts.length
    exact List.length_map _ _
  · exact resolve_alert_map_proj Alert.alert_id (fun _ => rfl) db aid
  · exact resolve_alert_map_proj Alert.device_id (fun _ => rfl) db aid
  · exact resolve_alert_map_proj Alert.group_id (fun _ => rfl) db aid
  · exact resolve_alert_map_proj Alert.alert_type (fun _ => rfl) db aid
  · exact resolve_alert_map_proj Alert.latitude (fun _ => rfl) db aid
  · exact resolve_alert_map_proj Alert.longitude (fun _ => rfl) db aid
  · exact resolve_alert_map_proj Alert.created_at (fun _ => rfl) db aid
  · exact resolve_alert_map_proj Alert.resolved_at (fun _ => rfl) db aid
  · show (db.alerts.map fun a =>
        if a.alert_id == aid then { a with is_resolved := true } else a).map Alert.is_resolved
      = db.alerts.map (fun a => a.is_resolved || (a.alert_id == aid))
    rw [List.map_map]
    refine List.map_congr_left ?_
    intro a _
    show Alert.is_resolved
        (if a.alert_id == aid then { a with is_resolved := true } else a)
      = (a.is_resolved || (a.alert_id == aid))
    cases hx : a.alert_id == aid
    · simp
    · simp

/-! ## Claim C6 — adding a device to a group -/

/-- C6: the add-device-to-group handler can only hand back a membership
when the requester owns both the group and the device (its success is in
fact unreachable: past both ownership checks the source's crud call
raises `TypeError`, caught and returned as a 400, so the only-if holds
a fortiori); and whenever the group exists but is owned by someone else
— regardless of any share row in the store, including a full-level share
on the device — the handler denies with the same 404 used for a missing
group, before the device or the shares are ever consulted. -/
theorem c6_group_add_requires_double_ownership :
    ∀ (db : DB) (u gid : Nat) (did : String),
      (∀ m : GroupMembership,
        add_device_to_group_endpoint db u gid did = Except.ok m →
        (∃ g, get_device_group db gid = some g ∧ g.user_id = u) ∧
        (∃ d, get_device db did = some d ∧ d.user_id = u)) ∧
      (∀ g : DeviceGroup, get_device_group db gid = some g → g.user_id ≠ u →
        add_device_to_group_endpoint db u gid did =
          Except.error ⟨404, "Group not found"⟩) := by
  intro db u gid did
  constructor
  · intro m hm
    unfold add_device_to_group_endpoint at hm
    split at hm
    · simp at hm
    · split at hm
      · simp at hm
      · split at hm
        · simp at hm
        · split at hm
          · simp at hm
          · simp at hm
  · intro g hg hgu
    unfold add_device_to_group_endpoint
    rw [hg]
    simp [hgu]

/-- C6 witness: user 2 holds a full-level share on d1 but does not own
group 1, and is denied. -/
theorem c6_witness :
    c6db.shares.map SharedDevice.permission_level = ["full"] ∧
    c6db.shares.map SharedDevice.shared_with_id = [2] ∧
    add_device_to_group_endpoint c6db 2 1 "d1" =
      Except.error ⟨404, "Group not found"⟩ :=
  ⟨rfl, rfl,
   (c6_group_add_requires_double_ownership c6db 2 1 "d1").2
     { group_id := 1, user_id := 1, group_name := "family", proximity_threshold := 20 }
     rfl (by decide)⟩

/-! ## Claim C7 — removing a device from a group -/

/-- C7 is false on the code: in `c7db` the membership (group 1, d1)
exists and the requester owns group 1, yet the handler reports 404
"Device not found in group" — `crud.remove_device_from_group` has no
return statement, so the handler's `if not result` test always fires and
existence is never reported. -/
theorem c7_remove_reports_not_found :
    c7db.memberships.map GroupMembership.group_id = [1] ∧
    c7db.memberships.map GroupMembership.device_id = ["d1"] ∧
    c7db.groups.map DeviceGroup.user_id = [1] ∧
    (remove_device_from_group_endpoint c7db 1 1 "d1").2 =
      Except.error ⟨404, "Device not found in group"⟩ :=
  ⟨rfl, rfl, rfl, rfl⟩

/-! ## Claim C8 — device updates preserve ownership -/

/-- Applying a `DeviceUpdate` never changes a device's owner or
identity: the schema exposes only `device_name` and
`last_battery_level`. -/
theorem applyDeviceUpdate_user_id (upd : DeviceUpdate) (d : Device) :
    (applyDeviceUpdate upd d).user_id = d.user_id ∧
    (applyDeviceUpdate upd d).device_id = d.device_id := by
  rcases upd with ⟨dn, bl⟩
  cases dn <;> cases bl <;> exact ⟨rfl, rfl⟩

/-- C8: for every store, device id and update payload, `update_device`
leaves every device's owning user (and identity) exactly as it was —
paired (device_id, user_id) columns are unchanged, so no update input
can transfer ownership. -/
theorem c8_update_device_preserves_owner :
    ∀ (db : DB) (did : String) (upd : DeviceUpdate),
      (update_device db did upd).devices.map Device.user_id =
        db.devices.map Device.user_id ∧
      (update_device db did upd).devices.map Device.device_id =
        db.devices.map Device.device_id ∧
      (update_device db did upd).devices.length = db.devices.length := by
  intro db did upd
  refine ⟨?_, ?_, ?_⟩
  · show (db.devices.map fun d =>
        if d.device_id == did then applyDeviceUpdate upd d else d).map Device.user_id
      = db.devices.map Device.user_id
    rw [List.map_map]
    refine List.map_congr_left ?_
    intro d _
    show Device.user_id (if d.device_id == did then applyDeviceUpdate upd d else d)
      = d.user_id
    cases hx : d.device_id == did
    · simp
    · simp [(applyDeviceUpdate_user_id upd d).1]
  · show (db.devices.map fun d =>
        if d.device_id == did then applyDeviceUpdate upd d else d).map Device.device_id
      = db.devices.map Device.device_id
    rw [List.map_map]
    refine List.map_congr_left ?_
    intro d _
    show Device.device_id (if d.device_id == did then applyDeviceUpdate upd d else d)
      = d.device_id
    cases hx : d.device_id == did
    · simp
    · simp [(applyDeviceUpdate_user_id upd d).2]
  · show (db.devices.map fun d =>
        if d.device_id == did then applyDeviceUpdate upd d else d).length
      = db.devices.length
    exact List.length_map _ _

/-! ## Claim C9 — device metadata is owner-only -/

/-- C9: the device-metadata read returns the identical 404 "Device not
found" both when no device with the id exists and when it exists but is
owned by another user — the store's share rows are arbitrary here, so an
active share on the device changes nothing — and returns the device only
to its owner. -/
theorem c9_device_read_owner_only :
    ∀ (db : DB) (u : Nat) (did : String),
      (get_device db did = none →
        read_device db u did = Except.error ⟨404, "Device not found"⟩) ∧
      (∀ d : Device, get_device db did = some d → d.user_id ≠ u →
        read_device db u did = Except.error ⟨404, "Device not found"⟩) ∧
      (∀ d : Device, get_device db did = some d → d.user_id = u →
        read_device db u did = Except.ok d) := by
  intro db u did
  refine ⟨?_, ?_, ?_⟩
  · intro h
    unfold read_device
    rw [h]
  · intro d h hne
    unfold read_device
    rw [h]
    simp [hne]
  · intro d h he
    unfold read_device
    rw [h]
    simp [he]

/-- C9 witness: in `c9db` user 2 holds an unexpired full-level share on
d1, yet reading d1's metadata gives the same 404 as reading a
nonexistent device dx. -/
theorem c9_witness :
    c9db.shares.map SharedDevice.shared_with_id = [2] ∧
    read_device c9db 2 "dx" = Except.error ⟨404, "Device not found"⟩ ∧
    read_device c9db 2 "d1" = Except.error ⟨404, "Device not found"⟩ :=
  ⟨rfl,
   (c9_device_read_owner_only c9db 2 "dx").1 rfl,
   (c9_device_read_owner_only c9db 2 "d1").2.1 dev1 rfl (by decide)⟩

/-! ## Claim C10 — location history limit and ordering -/

/-- C10: whenever the history endpoint answers, it returns at most
`limit` rows (10 when the query parameter is absent), sorted by
descending timestamp, and they are exactly the most recent fixes: the
returned rows together with some remainder permute the device's full
history, and every returned row is at least as recent as every omitted
one. -/
theorem c10_location_history_spec :
    ∀ (db : DB) (u : Nat) (did : String) (lim : Option Nat) (l : List LocationRow),
      read_device_locations db u did lim = Except.ok l →
      l.length ≤ lim.getD 10 ∧
      List.Sorted tsDesc l ∧
      (∃ rest, (l ++ rest).Perm (db.locations.filter (fun r => r.device_id == did)) ∧
        ∀ x ∈ l, ∀ y ∈ rest, y.timestamp ≤ x.timestamp) ∧
      read_device_locations db u did none = read_device_locations db u did (some 10) := by
  intro db u did lim l h
  have hl : l = get_device_locations db did (lim.getD 10) := by
    unfold read_device_locations at h
    split at h
    · simp at h
    · split at h
      · split at h
        · simp at h
        · exact (Except.ok.inj h).symm
      · exact (Except.ok.inj h).symm
  subst hl
  obtain ⟨h1, h2, h3, h4⟩ := get_device_locations_spec db did (lim.getD 10)
  exact ⟨h1, h2, ⟨_, h3, h4⟩, rfl⟩

/-- C10 witness: on `c10db`, limit 2 returns the fixes with timestamps
9 and 6, the two most recent for d1, in descending order. -/
theorem c10_witness :
    read_device_locations c10db 1 "d1" (some 2) = Except.ok [c10r2, c10r3] ∧
    ([c10r2, c10r3] : List LocationRow).length ≤ 2 ∧
    List.Sorted tsDesc [c10r2, c10r3] :=
  ⟨rfl,
   (c10_location_history_spec c10db 1 "d1" (some 2) [c10r2, c10r3] rfl).1,
   (c10_location_history_spec c10db 1 "d1" (some 2) [c10r2, c10r3] rfl).2.1⟩

end HweHweMe
